import Mathlib

/-
Verification of the MyRecovery training-recovery tracker.

Shallow embedding conventions:
- Python floats are modelled as rationals (ℚ); all constants in the source
  are exact decimal literals, so the arithmetic the claims talk about is
  exact in ℚ.
- math.exp and math.log(2.0) are transcendental, so the readiness engine is
  parameterised over an abstract exponential `expFn : ℚ → ℚ` and a constant
  `ln2 : ℚ`; every theorem that needs a property of the real exponential
  states it as an explicit hypothesis (only nonnegativity is ever needed).
- PBKDF2 is parameterised as `pbkdf2 : String → String → String`
  (password, hex salt ↦ hex hash).
- A Python `datetime` is used by the code for exactly two things:
  subtraction to obtain elapsed seconds, and `ts.date().isoformat()` as a
  dictionary key.  It is therefore embedded as a pair of an instant on the
  time line (seconds, ℚ) and the calendar-date key (String).
- Fallible operations (dict[key] raising KeyError) return Option.
-/

/-- The 19 tracked muscle groups (model.py, MUSCLES). -/
def MUSCLES : List String :=
  ["chest", "traps", "lats", "front_delts", "side_delts", "rear_delts",
   "biceps", "triceps", "forearm_flexors", "forearm_extensors",
   "brachioradialis", "quads", "hamstrings", "glutes", "calves",
   "lower_back", "abs", "neck_flexors", "neck_extensors"]

/-- A catalog entry (model.py, EXERCISES values): display name, primary and
secondary muscles, stimulus-to-fatigue ratio. -/
structure Exercise where
  name : String
  primary : List String
  secondary : List String
  sfr : ℚ
deriving DecidableEq

/-- The exercise catalog (model.py, EXERCISES), as an association list in
source order; Python dict lookup on distinct keys is association-list
lookup. -/
def EXERCISES : List (String × Exercise) :=
  [("hang_clean", ⟨"Hang Clean", ["glutes", "lower_back"], ["hamstrings", "calves", "front_delts"], 2.0⟩),
   ("wrist_curl", ⟨"Wrist Curl", ["forearm_flexors"], [], 4.0⟩),
   ("reverse_barbell_curl", ⟨"Reverse Barbell Curl", ["brachioradialis"], ["biceps", "forearm_extensors"], 3.8⟩),
   ("dumbbell_pullover", ⟨"Dumbbell Pullover", ["lats", "chest", "triceps"], [], 3.2⟩),
   ("pull_ups", ⟨"Pull Ups", ["lats", "traps"], ["biceps", "rear_delts", "brachioradialis", "forearm_flexors", "abs"], 3.4⟩),
   ("face_pull", ⟨"Face Pull", ["rear_delts"], ["traps"], 4.0⟩),
   ("incline_dumbbell_bench_press", ⟨"Incline Dumbbell Bench Press", ["chest", "front_delts"], ["triceps"], 3.7⟩),
   ("kettlebell_swing", ⟨"Kettlebell Swing", ["hamstrings", "glutes"], ["lower_back", "quads"], 2.5⟩),
   ("neck_extension", ⟨"Neck Extension", ["neck_extensors"], [], 4.0⟩),
   ("neck_curl", ⟨"Neck Curl", ["neck_flexors"], [], 4.0⟩),
   ("bent_over_row", ⟨"Bent Over Row", ["traps"], ["lats", "rear_delts", "biceps", "brachioradialis"], 3.2⟩),
   ("shoulder_press", ⟨"Shoulder Press", ["front_delts", "side_delts"], ["triceps", "traps"], 3.3⟩),
   ("back_extension", ⟨"Back Extension", ["lower_back"], ["glutes", "hamstrings"], 3.2⟩),
   ("dumbbell_lateral_raise", ⟨"Dumbbell Lateral Raise", ["side_delts"], [], 4.5⟩),
   ("treadmill_run", ⟨"Treadmill Run", ["quads", "hamstrings", "calves"], ["glutes"], 2.5⟩),
   ("reverse_wrist_curl", ⟨"Reverse Wrist Curl", ["forearm_extensors"], [], 3.8⟩),
   ("nordic_hamstring_curl", ⟨"Nordic Hamstring Curl", ["hamstrings"], ["glutes"], 3.8⟩),
   ("sled_leg_press", ⟨"Sled Leg Press", ["quads", "glutes"], ["hamstrings"], 4.0⟩),
   ("mace_swings", ⟨"Mace Swings", ["triceps", "front_delts"], ["abs", "forearm_flexors", "brachioradialis"], 2.5⟩),
   ("forearm_riser_rope", ⟨"Forearm Riser Rope", ["forearm_flexors", "forearm_extensors"], [], 3.8⟩),
   ("forearm_pronations_rope", ⟨"Forearm Pronations Rope", ["forearm_extensors", "brachioradialis"], [], 3.8⟩),
   ("bench_press", ⟨"Bench Press", ["chest"], ["triceps", "front_delts"], 3.5⟩),
   ("incline_dumbbell_curl", ⟨"Incline Dumbbell Curl", ["biceps"], ["brachioradialis", "forearm_flexors"], 4.3⟩),
   ("squat", ⟨"Squat", ["quads", "glutes"], ["hamstrings", "lower_back"], 3.0⟩),
   ("cable_bicep_curl", ⟨"Cable Bicep Curl", ["biceps"], ["brachioradialis", "forearm_flexors"], 4.3⟩),
   ("pseudo_planche_push_up", ⟨"Pseudo Planche Push Up", ["chest", "front_delts"], ["triceps", "abs"], 3.0⟩),
   ("rear_pec_fly_with_expander", ⟨"Rear Pec Fly with Expander", ["rear_delts", "traps"], [], 4.0⟩),
   ("deadlift", ⟨"Deadlift", ["hamstrings", "glutes", "lower_back"], ["traps", "forearm_flexors", "brachioradialis"], 2.0⟩),
   ("dumbbell_fly", ⟨"Dumbbell Fly", ["chest"], ["front_delts"], 3.5⟩),
   ("one_arm_pull_ups", ⟨"One Arm Pull Ups", ["lats", "traps"], ["biceps", "brachioradialis", "forearm_flexors"], 2.8⟩),
   ("one_arm_deadhang", ⟨"One Arm Deadhang", ["forearm_flexors", "brachioradialis", "lats"], [], 3.0⟩),
   ("incline_dumbbell_fly", ⟨"Incline Dumbbell Fly", ["chest"], ["front_delts"], 3.4⟩),
   ("hammer_curl", ⟨"Hammer Curl", ["biceps", "brachioradialis"], ["forearm_flexors"], 4.2⟩),
   ("paused_bench_press", ⟨"Paused Bench Press", ["chest"], ["triceps", "front_delts"], 3.3⟩),
   ("alternating_kettlebell_hang_clean", ⟨"Alternating Kettlebell Hang Clean", ["quads", "glutes", "lower_back"], ["hamstrings", "calves", "front_delts"], 2.3⟩),
   ("dumbbell_shoulder_press", ⟨"Dumbbell Shoulder Press", ["front_delts"], ["side_delts", "triceps"], 3.5⟩),
   ("back_press", ⟨"Back Press", ["side_delts", "triceps"], [], 3.0⟩),
   ("seated_cable_row", ⟨"Seated Cable Row", ["traps"], ["lats", "rear_delts", "biceps"], 3.8⟩),
   ("overhead_pullapart_pronated", ⟨"Overhead Pullapart (Pronated)", ["rear_delts", "traps"], [], 4.0⟩),
   ("incline_bench_press", ⟨"Incline Bench Press", ["chest", "front_delts"], ["triceps"], 3.5⟩),
   ("lat_pulldown", ⟨"Lat Pulldown", ["lats"], ["biceps", "rear_delts", "brachioradialis"], 3.8⟩),
   ("dips", ⟨"Dips", ["triceps", "chest"], ["front_delts"], 3.2⟩),
   ("seated_dumbbell_shoulder_press", ⟨"Seated Dumbbell Shoulder Press", ["front_delts"], ["side_delts", "triceps"], 3.6⟩),
   ("romanian_deadlift", ⟨"Romanian Deadlift", ["hamstrings", "glutes"], ["lower_back", "forearm_flexors", "brachioradialis"], 2.3⟩),
   ("bicep_curl", ⟨"Dumbbell Bicep Curl", ["biceps"], ["brachioradialis", "forearm_flexors"], 4.5⟩),
   ("tricep_pushdown", ⟨"Cable Tricep Pushdown", ["triceps"], [], 4.0⟩),
   ("leg_press", ⟨"Leg Press", ["quads", "glutes"], ["hamstrings"], 4.0⟩),
   ("leg_curl", ⟨"Leg Curl", ["hamstrings"], [], 4.0⟩),
   ("calf_raise", ⟨"Standing Calf Raise", ["calves"], [], 4.0⟩),
   ("ab_wheel", ⟨"Ab Wheel Rollout", ["abs"], ["lower_back"], 3.5⟩)]

/-- Fallback recovery half-life in days (recovery_logic.py). -/
def DEFAULT_HALF_LIFE_DAYS : ℚ := 2.0

/-- Per-muscle half-lives in days (recovery_logic.py, MUSCLE_HALF_LIFE_DAYS);
the "back" entry is present in the source but never looked up. -/
def MUSCLE_HALF_LIFE_DAYS : List (String × ℚ) :=
  [("quads", 2.7), ("hamstrings", 2.7), ("glutes", 2.7), ("calves", 2.3),
   ("lower_back", 2.8), ("back", 2.3), ("lats", 2.2), ("chest", 2.2),
   ("front_delts", 2.0), ("side_delts", 1.8), ("rear_delts", 1.8),
   ("biceps", 1.6), ("triceps", 1.6), ("forearm_flexors", 1.3),
   ("forearm_extensors", 1.3), ("brachioradialis", 1.3),
   ("neck_flexors", 1.6), ("neck_extensors", 1.6), ("abs", 1.5)]

/-- recovery_logic.get_half_life_days. -/
def get_half_life_days (muscle : String) : ℚ :=
  (MUSCLE_HALF_LIFE_DAYS.lookup muscle).getD DEFAULT_HALF_LIFE_DAYS

/-- Sets older than this many days contribute zero fatigue
(recovery_logic.py). -/
def RECOVERY_HORIZON_DAYS : ℚ := 5.0

/-- recovery_logic.effort_multiplier_from_rir: map RIR to how hard the set
was; branches mirrored in source order. -/
def effort_multiplier_from_rir (rir : Option Int) : ℚ :=
  match rir with
  | none => 0.7
  | some r =>
    if 4 ≤ r then 0.4
    else if r = 3 then 0.6
    else if r = 2 then 0.8
    else if r = 1 then 1.0
    else if r ≤ 0 then 1.2
    else 0.7

/-- recovery_logic.sleep_factor. -/
def sleep_factor (hours : Option ℚ) : ℚ :=
  match hours with
  | none => 1.0
  | some h =>
    if h < 6 then 0.7
    else if h < 7.5 then 1.0
    else if h ≤ 9 then 1.1
    else 0.95

/-- recovery_logic.steps_factor. -/
def steps_factor (steps : Option Int) : ℚ :=
  match steps with
  | none => 1.0
  | some n =>
    if n < 3000 then 0.8
    else if n ≤ 10000 then 1.0
    else if n ≤ 15000 then 0.95
    else 0.9

/-- recovery_logic.classify_muscle: readiness percentage to label. -/
def classify_muscle (readiness : ℚ) : String :=
  if 95 ≤ readiness then "🟢 FULLY FRESH"
  else if 80 ≤ readiness then "🟢 ALMOST FRESH"
  else if 60 ≤ readiness then "🟡 SLIGHTLY FATIGUED"
  else if 40 ≤ readiness then "🟠 MODERATLY FATIGUED"
  else if readiness = 0 then "💀 YOU DESTROYED THIS MUSCLE"
  else "🔴 VERY FATIGUED"

/-- C5: classify_muscle maps 100.0 to the fully-fresh label, maps 0.0 to the
distinct maximally-fatigued terminal label (not the generic very-fatigued
label returned for 20.0), and maps each boundary value 95.0, 80.0, 60.0,
40.0 into its higher band (each band's lower bound is closed). -/
theorem classify_muscle_boundary_bands :
    classify_muscle 100 = "🟢 FULLY FRESH" ∧
    classify_muscle 0 = "💀 YOU DESTROYED THIS MUSCLE" ∧
    classify_muscle 20 = "🔴 VERY FATIGUED" ∧
    classify_muscle 0 ≠ classify_muscle 20 ∧
    classify_muscle 95 = "🟢 FULLY FRESH" ∧
    classify_muscle 80 = "🟢 ALMOST FRESH" ∧
    classify_muscle 60 = "🟡 SLIGHTLY FATIGUED" ∧
    classify_muscle 40 = "🟠 MODERATLY FATIGUED" := by
  refine ⟨?_, ?_, ?_, ?_, ?_, ?_, ?_, ?_⟩ <;> decide

/-- A Python datetime, embedded as the instant it denotes (seconds on the
time line, as used by subtraction and total_seconds()) together with the
calendar-date key produced by ts.date().isoformat() (used as a dict key).
ISO-8601 rendering of a datetime is injective, so string comparison of
timestamps in storage.py is comparison of these values. -/
structure Datetime where
  epochSeconds : ℚ
  dateKey : String
deriving DecidableEq

/-- One record of the "sets" collection (storage.py, log_set): the source
writes no "id" key, so the optional identifier read back by the dashboard
(s.get("id", "")) is modelled as an Option that log_set leaves none. -/
structure SetRec where
  user_id : String
  exercise_id : String
  reps : Int
  weight : ℚ
  rir : Option Int
  timestamp : Datetime
  id : Option String
deriving DecidableEq

/-- One record of the "daily" collection (storage.py, log_daily_recovery). -/
structure DailyRec where
  user_id : String
  date : String
  sleep_hours : Option ℚ
  steps : Option Int
deriving DecidableEq

/-- The data.json backing file: two named collections. -/
structure Store where
  sets : List SetRec
  daily : List DailyRec
deriving DecidableEq

/-- An absent or empty data.json is treated as empty collections
(storage._load_data). -/
def EMPTY_STORE : Store := ⟨[], []⟩

/-- storage.log_set: append one set record; no id is assigned. -/
def log_set (st : Store) (user_id exercise_id : String) (reps : Int)
    (weight : ℚ) (rir : Option Int) (timestamp : Datetime) : Store :=
  { st with sets := st.sets ++ [⟨user_id, exercise_id, reps, weight, rir, timestamp, none⟩] }

/-- storage.log_daily_recovery: drop every existing entry for (user, today),
then append the new one.  The source computes today = datetime.now().date();
the reference date is passed explicitly here. -/
def log_daily_recovery (st : Store) (user_id : String) (sleep_hours : Option ℚ)
    (steps : Option Int) (today : String) : Store :=
  { st with daily :=
      st.daily.filter (fun d => decide (¬ (d.user_id = user_id ∧ d.date = today)))
        ++ [⟨user_id, today, sleep_hours, steps⟩] }

/-- storage.get_all_sets. -/
def get_all_sets (st : Store) : List SetRec := st.sets

/-- storage.get_all_daily. -/
def get_all_daily (st : Store) : List DailyRec := st.daily

/-- storage.delete_set_by_timestamp: filter out every set matching user and
timestamp; persist and return True only when the collection shrank. -/
def delete_set_by_timestamp (st : Store) (user_id : String) (timestamp : Datetime) :
    Store × Bool :=
  let remaining := st.sets.filter (fun s => decide (¬ (s.user_id = user_id ∧ s.timestamp = timestamp)))
  if remaining.length < st.sets.length then ({ st with sets := remaining }, true)
  else (st, false)

/-- One call to log_daily_recovery, for quantifying over call sequences. -/
structure DailyCall where
  user_id : String
  sleep_hours : Option ℚ
  steps : Option Int
  today : String
deriving DecidableEq

/-- Replay a sequence of log_daily_recovery calls against the empty file. -/
def apply_daily_calls (calls : List DailyCall) : Store :=
  calls.foldl (fun st c => log_daily_recovery st c.user_id c.sleep_hours c.steps c.today)
    EMPTY_STORE

/-- The "at most one daily entry per (user, date)" invariant. -/
def UniqDaily (l : List DailyRec) : Prop :=
  l.Pairwise (fun a b => ¬ (a.user_id = b.user_id ∧ a.date = b.date))

/-- Python str.strip(): drop leading and trailing whitespace. -/
def py_strip (s : String) : String :=
  ⟨((s.data.dropWhile Char.isWhitespace).reverse.dropWhile Char.isWhitespace).reverse⟩

/-- Digit-string to number: all characters must be decimal digits and at
least one must be present. -/
def parse_nat_digits (l : List Char) : Option Nat :=
  if l.isEmpty then none
  else if l.all (fun c => c.isDigit) then
    some (l.foldl (fun acc c => acc * 10 + (c.toNat - 48)) 0)
  else none

/-- Python int(str) on an already-stripped string: optional sign followed by
decimal digits; anything else raises ValueError, modelled as none. -/
def py_int_of_string (s : String) : Option Int :=
  match s.data with
  | '-' :: rest => (parse_nat_digits rest).map (fun n => -(n : Int))
  | '+' :: rest => (parse_nat_digits rest).map (fun n => (n : Int))
  | l => (parse_nat_digits l).map (fun n => (n : Int))

/-- app_cli.log_workout_sets, RIR prompt: strip the input; blank means
unknown (None); a non-numeric answer is accepted as None with a warning;
any parsed integer is passed to log_set unchanged. -/
def cli_rir_input (raw : String) : Option Int :=
  let t := py_strip raw
  if t = "" then none
  else py_int_of_string t

/-- Modelled from the spec: the dashboard's number-entry widget (a
third-party form control, outside this repository) constrains the value it
returns into [min_value, max_value]; app_streamlit.py instantiates it with
min 0 and max 5 for the RIR field. -/
def st_number_input (min_value max_value value : Int) : Int :=
  max min_value (min max_value value)

/-- The RIR value the dashboard passes to log_set (app_streamlit.py,
rir_input with min_value=0, max_value=5). -/
def dashboard_rir (typed : Int) : Int := st_number_input 0 5 typed

/-- Helper: a filter keeping only key-matching entries finds nothing in a
list from which all key-matching entries were just removed. -/
theorem filter_pos_of_filter_neg {α} (p : α → Prop) [DecidablePred p] (l : List α) :
    (l.filter (fun a => decide (¬ p a))).filter (fun a => decide (p a)) = [] := by
  induction l with
  | nil => rfl
  | cons a t ih =>
    by_cases h : p a <;> simp [List.filter_cons, h, ih]

/-- Helper: filtering strictly shrinks a list exactly when some element
fails the predicate. -/
theorem length_filter_lt_iff {α} (p : α → Bool) (l : List α) :
    (l.filter p).length < l.length ↔ ∃ x ∈ l, p x = false := by
  induction l with
  | nil => simp
  | cons a t ih =>
    cases h : p a with
    | true =>
      simp only [List.filter_cons, h, if_true, List.length_cons, Nat.add_lt_add_iff_right, ih,
        List.mem_cons]
      constructor
      · rintro ⟨x, hx, hpx⟩
        exact ⟨x, Or.inr hx, hpx⟩
      · rintro ⟨x, hx | hx, hpx⟩
        · subst hx; simp [h] at hpx
        · exact ⟨x, hx, hpx⟩
    | false =>
      simp only [List.filter_cons, h, if_false, List.length_cons, List.mem_cons]
      constructor
      · intro _
        exact ⟨a, Or.inl rfl, h⟩
      · intro _
        exact Nat.lt_succ_of_le (List.length_filter_le ..)

/-- Helper: one log_daily_recovery call preserves per-(user, date)
uniqueness of the daily collection. -/
theorem uniqDaily_log_daily_recovery (st : Store) (u : String) (sh : Option ℚ)
    (stp : Option Int) (t : String) (h : UniqDaily st.daily) :
    UniqDaily (log_daily_recovery st u sh stp t).daily := by
  unfold UniqDaily log_daily_recovery at *
  rw [List.pairwise_append]
  refine ⟨h.sublist (List.filter_sublist _), List.pairwise_singleton .., ?_⟩
  intro a ha b hb
  rcases List.mem_filter.mp ha with ⟨-, hcond⟩
  rcases List.mem_singleton.mp hb with rfl
  simpa using of_decide_eq_true hcond

/-- Helper: replaying log_daily_recovery calls from a unique-keyed state
keeps the daily collection unique-keyed. -/
theorem uniqDaily_foldl (calls : List DailyCall) :
    ∀ st : Store, UniqDaily st.daily →
      UniqDaily ((calls.foldl (fun st c =>
        log_daily_recovery st c.user_id c.sleep_hours c.steps c.today) st).daily) := by
  induction calls with
  | nil => intro st h; exact h
  | cons c rest ih =>
    intro st h
    exact ih _ (uniqDaily_log_daily_recovery st c.user_id c.sleep_hours c.steps c.today h)

/-- C6: after any sequence of log-daily-recovery calls the daily collection
has at most one entry per (user, date); and a call for a (user, date) leaves
exactly one entry for that key, carrying the values just supplied. -/
theorem log_daily_recovery_unique_per_user_date :
    (∀ calls : List DailyCall, UniqDaily (apply_daily_calls calls).daily) ∧
    (∀ (st : Store) (u : String) (sh : Option ℚ) (stp : Option Int) (t : String),
      (log_daily_recovery st u sh stp t).daily.filter
          (fun d => decide (d.user_id = u ∧ d.date = t)) = [⟨u, t, sh, stp⟩]) := by
  constructor
  · intro calls
    exact uniqDaily_foldl calls EMPTY_STORE (List.Pairwise.nil)
  · intro st u sh stp t
    unfold log_daily_recovery
    rw [List.filter_append,
      filter_pos_of_filter_neg (fun d : DailyRec => d.user_id = u ∧ d.date = t) st.daily]
    simp [List.filter_cons]

/-- C6 witness: logging sleep 7/steps 8000 then sleep 5/steps 2000 for the
same user and date leaves a unique-keyed collection, and the second call
leaves exactly one (user, date) entry holding the second values. -/
theorem log_daily_recovery_unique_per_user_date_witness :
    UniqDaily (apply_daily_calls
      [⟨"Ahmed", some 7, some 8000, "2025-11-21"⟩,
       ⟨"Ahmed", some 5, some 2000, "2025-11-21"⟩]).daily ∧
    (log_daily_recovery (apply_daily_calls [⟨"Ahmed", some 7, some 8000, "2025-11-21"⟩])
        "Ahmed" (some 5) (some 2000) "2025-11-21").daily.filter
        (fun d => decide (d.user_id = "Ahmed" ∧ d.date = "2025-11-21"))
      = [⟨"Ahmed", "2025-11-21", some 5, some 2000⟩] :=
  ⟨log_daily_recovery_unique_per_user_date.1 _,
   log_daily_recovery_unique_per_user_date.2 _ "Ahmed" (some 5) (some 2000) "2025-11-21"⟩

/-- C7 counterexample: the Text-Menu client does not clamp RIR — typing
"7" at the RIR prompt parses to 7, which is passed to log_set unchanged,
so the stored set carries an RIR outside the 0 to 5 range. -/
theorem cli_rir_not_clamped :
    cli_rir_input "7" = some 7 ∧
    (log_set EMPTY_STORE "Ahmed" "bench_press" 8 60 (cli_rir_input "7")
        ⟨0, "1970-01-01"⟩).sets
      = [⟨"Ahmed", "bench_press", 8, 60, some 7, ⟨0, "1970-01-01"⟩, none⟩] ∧
    ¬ ((7 : Int) ≤ 5) := by
  refine ⟨by decide, ?_, by decide⟩
  rfl

/-- C7 amended: the Dashboard client's RIR widget does constrain the logged
RIR into 0 to 5 (its value reaches log_set unchanged), while the Text-Menu
client passes any parsed integer through: only blank or non-numeric input
becomes an absent RIR. -/
theorem dashboard_rir_in_range (typed : Int) :
    0 ≤ dashboard_rir typed ∧ dashboard_rir typed ≤ 5 ∧
    (∀ (st : Store) (u ex : String) (reps : Int) (w : ℚ) (ts : Datetime),
      (log_set st u ex reps w (some (dashboard_rir typed)) ts).sets.getLast?.map SetRec.rir
        = some (some (dashboard_rir typed))) ∧
    (∀ raw : String, cli_rir_input raw = none ∨
      cli_rir_input raw = py_int_of_string (py_strip raw)) := by
  refine ⟨?_, ?_, ?_, ?_⟩
  · exact le_max_left ..
  · simp only [dashboard_rir, st_number_input]
    omega
  · intro st u ex reps w ts
    simp [log_set]
  · intro raw
    by_cases h : py_strip raw = ""
    · exact Or.inl (by simp [cli_rir_input, h])
    · exact Or.inr (by simp [cli_rir_input, h])

/-- C8 counterexample: with two sets sharing the same user id and
timestamp, delete_set_by_timestamp removes both of them, not exactly one:
the collection shrinks from two records to zero. -/
theorem delete_set_by_timestamp_not_single :
    (Store.mk
        [⟨"Ahmed", "bench_press", 8, 60, some 2, ⟨0, "2025-11-21"⟩, none⟩,
         ⟨"Ahmed", "squat", 5, 100, some 1, ⟨0, "2025-11-21"⟩, none⟩] []).sets.length = 2 ∧
    (delete_set_by_timestamp
      (Store.mk
        [⟨"Ahmed", "bench_press", 8, 60, some 2, ⟨0, "2025-11-21"⟩, none⟩,
         ⟨"Ahmed", "squat", 5, 100, some 1, ⟨0, "2025-11-21"⟩, none⟩] [])
      "Ahmed" ⟨0, "2025-11-21"⟩).1.sets.length = 0 ∧
    (delete_set_by_timestamp
      (Store.mk
        [⟨"Ahmed", "bench_press", 8, 60, some 2, ⟨0, "2025-11-21"⟩, none⟩,
         ⟨"Ahmed", "squat", 5, 100, some 1, ⟨0, "2025-11-21"⟩, none⟩] [])
      "Ahmed" ⟨0, "2025-11-21"⟩).1.sets.length ≠ 1 := by
  refine ⟨rfl, ?_, ?_⟩ <;> decide

/-- C8 amended: delete-set-by-timestamp removes every LoggedSet matching
both the user id and the exact timestamp (the daily collection is
untouched), and returns True if and only if at least one set matched. -/
theorem delete_set_by_timestamp_spec (st : Store) (u : String) (t : Datetime) :
    (delete_set_by_timestamp st u t).1.sets
        = st.sets.filter (fun s => decide (¬ (s.user_id = u ∧ s.timestamp = t))) ∧
    (delete_set_by_timestamp st u t).1.daily = st.daily ∧
    ((delete_set_by_timestamp st u t).2 = true ↔
        ∃ s ∈ st.sets, s.user_id = u ∧ s.timestamp = t) := by
  simp only [delete_set_by_timestamp]
  split
  next h =>
    refine ⟨rfl, rfl, ?_⟩
    constructor
    · intro _
      rcases (length_filter_lt_iff _ st.sets).mp h with ⟨x, hx, hpx⟩
      refine ⟨x, hx, ?_⟩
      simpa using hpx
    · intro _
      rfl
  next h =>
    refine ⟨?_, rfl, ?_⟩
    · refine (List.filter_eq_self.mpr ?_).symm
      intro a ha
      by_contra hcon
      exact h ((length_filter_lt_iff _ st.sets).mpr ⟨a, ha, by simpa using hcon⟩)
    · constructor
      · intro hcon
        simp at hcon
      · rintro ⟨s, hs, hmatch⟩
        exact absurd ((length_filter_lt_iff _ st.sets).mpr ⟨s, hs, by simpa using hmatch⟩) h

/-- C8 witness: the amended deletion contract evaluated at a concrete
two-record store. -/
theorem delete_set_by_timestamp_spec_witness :
    (delete_set_by_timestamp
        (Store.mk [⟨"Ahmed", "bench_press", 8, 60, some 2, ⟨0, "2025-11-21"⟩, none⟩]
          [⟨"Ahmed", "2025-11-21", some 7, some 9500⟩])
        "Ahmed" ⟨0, "2025-11-21"⟩).1.sets
      = (Store.mk [⟨"Ahmed", "bench_press", 8, 60, some 2, ⟨0, "2025-11-21"⟩, none⟩]
          [⟨"Ahmed", "2025-11-21", some 7, some 9500⟩]).sets.filter
          (fun s => decide (¬ (s.user_id = "Ahmed" ∧ s.timestamp = ⟨0, "2025-11-21"⟩))) ∧
    (delete_set_by_timestamp
        (Store.mk [⟨"Ahmed", "bench_press", 8, 60, some 2, ⟨0, "2025-11-21"⟩, none⟩]
          [⟨"Ahmed", "2025-11-21", some 7, some 9500⟩])
        "Ahmed" ⟨0, "2025-11-21"⟩).1.daily
      = (Store.mk [⟨"Ahmed", "bench_press", 8, 60, some 2, ⟨0, "2025-11-21"⟩, none⟩]
          [⟨"Ahmed", "2025-11-21", some 7, some 9500⟩]).daily ∧
    ((delete_set_by_timestamp
        (Store.mk [⟨"Ahmed", "bench_press", 8, 60, some 2, ⟨0, "2025-11-21"⟩, none⟩]
          [⟨"Ahmed", "2025-11-21", some 7, some 9500⟩])
        "Ahmed" ⟨0, "2025-11-21"⟩).2 = true ↔
      ∃ s ∈ (Store.mk [⟨"Ahmed", "bench_press", 8, 60, some 2, ⟨0, "2025-11-21"⟩, none⟩]
          [⟨"Ahmed", "2025-11-21", some 7, some 9500⟩]).sets,
        s.user_id = "Ahmed" ∧ s.timestamp = ⟨0, "2025-11-21"⟩) :=
  delete_set_by_timestamp_spec _ "Ahmed" ⟨0, "2025-11-21"⟩

/-- Fractional days between the reference instant and a set's timestamp
(recovery_logic: (as_of - ts).total_seconds() / 86400.0). -/
def days_since (as_of : ℚ) (s : SetRec) : ℚ :=
  (as_of - s.timestamp.epochSeconds) / 86400

/-- The daily_by_date dict built in compute_current_muscle_readiness: a
Python dict comprehension keeps the last entry for a duplicated date key. -/
def daily_by_date (daily : List DailyRec) (date_key : String) : Option DailyRec :=
  (daily.filter (fun d => decide (d.date = date_key))).getLast?

/-- The (muscle, weight) pairs of a set's exercise: primary muscles at
weight 1.0, secondary at 0.5 (recovery_logic, muscles_and_weights). -/
def muscles_and_weights (ex : Exercise) : List (String × ℚ) :=
  ex.primary.map (fun m => (m, 1.0)) ++ ex.secondary.map (fun m => (m, 0.5))

/-- The day's sleep factor: sleep_factor(day_info["sleep_hours"]) when the
set's date has a daily entry, else the neutral 1.0 (recovery_logic). -/
def sleep_factor_of_day (day_info : Option DailyRec) : ℚ :=
  match day_info with
  | some d => sleep_factor d.sleep_hours
  | none => 1.0

/-- The day's steps factor: steps_factor(day_info["steps"]) when the set's
date has a daily entry, else the neutral 1.0 (recovery_logic). -/
def steps_factor_of_day (day_info : Option DailyRec) : ℚ :=
  match day_info with
  | some d => steps_factor d.steps
  | none => 1.0

/-- The raw fatigue one set contributes to one muscle in the loop body of
compute_current_muscle_readiness: skip future sets and sets at or past the
recovery horizon, look up the day's sleep/steps by the set's own calendar
date, skip unknown exercise ids, then accumulate
effort x (1/sfr) x weight x exp(-(ln2/half_life) x sleep x steps x days)
over the exercise's (muscle, weight) pairs that name this muscle. -/
def set_fatigue_on (expFn : ℚ → ℚ) (ln2 : ℚ) (user_daily : List DailyRec)
    (as_of : ℚ) (s : SetRec) (m : String) : ℚ :=
  if days_since as_of s < 0 then 0
  else if RECOVERY_HORIZON_DAYS ≤ days_since as_of s then 0
  else
    let day_info := daily_by_date user_daily s.timestamp.dateKey
    let sf := sleep_factor_of_day day_info
    let stf := steps_factor_of_day day_info
    match EXERCISES.lookup s.exercise_id with
    | none => 0
    | some ex =>
      let fatigue_factor := 1 / ex.sfr
      let effort_mult := effort_multiplier_from_rir s.rir
      let base_set_fatigue := effort_mult * fatigue_factor
      (muscles_and_weights ex).foldl
        (fun acc mw =>
          if mw.1 = m then
            acc + base_set_fatigue * mw.2 *
              expFn (-(ln2 / get_half_life_days mw.1 * sf * stf * days_since as_of s))
          else acc)
        0

/-- Total raw fatigue accumulated on one muscle over the user's sets
(recovery_logic: the defaultdict summed over the set loop; sets and daily
entries are first filtered to the requested user). -/
def fatigue_total (expFn : ℚ → ℚ) (ln2 : ℚ) (sets : List SetRec)
    (daily : List DailyRec) (user_id : String) (as_of : ℚ) (m : String) : ℚ :=
  (sets.filter (fun s => decide (s.user_id = user_id))).foldl
    (fun acc s =>
      acc + set_fatigue_on expFn ln2
        (daily.filter (fun d => decide (d.user_id = user_id))) as_of s m)
    0

/-- Overall fatigue-to-percentage scale (recovery_logic, SCALE_PER_UNIT). -/
def SCALE_PER_UNIT : ℚ := 60.0

/-- Percentage-scale fatigue below this is treated as fully recovered
(recovery_logic, EPS). -/
def EPS : ℚ := 9.9

/-- The conversion from raw fatigue to readiness in the final loop of
compute_current_muscle_readiness: scale, kill tiny fatigue, cap at 100,
subtract from 100, floor at 0. -/
def readiness_from_raw (raw : ℚ) : ℚ :=
  let scaled := raw * SCALE_PER_UNIT
  let scaled2 := if scaled < EPS then 0 else min scaled 100
  max 0 (100 - scaled2)

/-- recovery_logic.compute_current_muscle_readiness: the ReadinessMap over
all tracked muscles, as an association list in MUSCLES order. -/
def compute_current_muscle_readiness (expFn : ℚ → ℚ) (ln2 : ℚ)
    (sets : List SetRec) (daily : List DailyRec) (user_id : String)
    (as_of : ℚ) : List (String × ℚ) :=
  MUSCLES.map (fun m =>
    (m, readiness_from_raw (fatigue_total expFn ln2 sets daily user_id as_of m)))

/-- Python muscle_readiness.get(m, 100.0): map lookup with default 100. -/
def readiness_at (rm : List (String × ℚ)) (m : String) : ℚ :=
  (rm.lookup m).getD 100.0

/-- recovery_logic.classify_exercise.  The source indexes the catalog with
EXERCISES[exercise_id], which raises KeyError for an unknown id; the raise
is modelled as none. -/
def classify_exercise (exercise_id : String)
    (muscle_readiness : List (String × ℚ)) : Option String :=
  match EXERCISES.lookup exercise_id with
  | none => none
  | some ex =>
    let prim_ready_full := ex.primary.all (fun m => decide (80 ≤ readiness_at muscle_readiness m))
    let sec_ready_full := ex.secondary.all (fun m => decide (60 ≤ readiness_at muscle_readiness m))
    if prim_ready_full && sec_ready_full then some "full_power"
    else
      let prim_ready_mod := ex.primary.all (fun m => decide (60 ≤ readiness_at muscle_readiness m))
      let sec_ready_mod := ex.secondary.all (fun m => decide (50 ≤ readiness_at muscle_readiness m))
      if prim_ready_mod && sec_ready_mod then some "moderate"
      else some "fatigued"

/-- Whether a set's exercise lists a muscle among its weighted pairs; a set
with an unknown exercise id touches nothing. -/
def touches (s : SetRec) (m : String) : Bool :=
  match EXERCISES.lookup s.exercise_id with
  | none => false
  | some ex => (muscles_and_weights ex).any (fun mw => mw.1 == m)

/-- Helper: looking up a key present in a list keyed by itself. -/
theorem lookup_map_self (f : String → ℚ) :
    ∀ (l : List String) (m : String), m ∈ l →
      (l.map (fun x => (x, f x))).lookup m = some (f m) := by
  intro l
  induction l with
  | nil => intro m hm; cases hm
  | cons x xs ih =>
    intro m hm
    by_cases h : m = x
    · subst h
      simp [List.lookup]
    · have hbeq : (m == x) = false := by simp [h]
      rcases List.mem_cons.mp hm with h' | h'
      · exact absurd h' h
      · simp [List.lookup, hbeq, ih m h']

/-- Helper: looking up a key absent from a list keyed by itself. -/
theorem lookup_map_none (f : String → ℚ) :
    ∀ (l : List String) (m : String), m ∉ l →
      (l.map (fun x => (x, f x))).lookup m = none := by
  intro l
  induction l with
  | nil => intro m _; rfl
  | cons x xs ih =>
    intro m hm
    have h : ¬ m = x := fun hx => hm (hx ▸ List.mem_cons_self x xs)
    have hbeq : (m == x) = false := by simp [h]
    have h' : m ∉ xs := fun hx => hm (List.mem_cons_of_mem x hx)
    simp [List.lookup, hbeq, ih m h']

/-- Helper: a left fold that only adds splits off its accumulator. -/
theorem foldl_add_shift {α : Type} (g : α → ℚ) :
    ∀ (l : List α) (a : ℚ),
      l.foldl (fun acc x => acc + g x) a = a + l.foldl (fun acc x => acc + g x) 0 := by
  intro l
  induction l with
  | nil => intro a; simp
  | cons x xs ih =>
    intro a
    rw [List.foldl_cons, List.foldl_cons, ih (a + g x), ih (0 + g x)]
    ring

/-- Helper: a left fold of all-zero additions is zero. -/
theorem foldl_add_eq_zero {α : Type} (g : α → ℚ) :
    ∀ (l : List α), (∀ x ∈ l, g x = 0) → l.foldl (fun acc x => acc + g x) 0 = 0 := by
  intro l
  induction l with
  | nil => intro _; rfl
  | cons x xs ih =>
    intro h
    rw [List.foldl_cons, foldl_add_shift, h x (List.mem_cons_self x xs),
      ih (fun y hy => h y (List.mem_cons_of_mem x hy))]
    ring

/-- Helper: one extra set splits off the front of the per-muscle total. -/
theorem fatigue_total_cons (expFn : ℚ → ℚ) (ln2 : ℚ) (s : SetRec)
    (sets : List SetRec) (daily : List DailyRec) (user : String) (as_of : ℚ)
    (m : String) :
    fatigue_total expFn ln2 (s :: sets) daily user as_of m
      = (if s.user_id = user then
          set_fatigue_on expFn ln2
            (daily.filter (fun d => decide (d.user_id = user))) as_of s m
        else 0) + fatigue_total expFn ln2 sets daily user as_of m := by
  unfold fatigue_total
  rw [List.filter_cons]
  by_cases h : s.user_id = user
  · simp only [h, decide_True, if_true, List.foldl_cons, zero_add]
    rw [foldl_add_shift]
  · simp only [h, decide_False, Bool.false_eq_true, if_false, zero_add]

/-- Helper: a set whose age is negative or at/past the horizon contributes
zero fatigue to every muscle. -/
theorem set_fatigue_skip (expFn : ℚ → ℚ) (ln2 : ℚ) (ud : List DailyRec)
    (as_of : ℚ) (s : SetRec) (m : String)
    (h : days_since as_of s < 0 ∨ RECOVERY_HORIZON_DAYS ≤ days_since as_of s) :
    set_fatigue_on expFn ln2 ud as_of s m = 0 := by
  unfold set_fatigue_on
  by_cases h1 : days_since as_of s < 0
  · rw [if_pos h1]
  · rw [if_neg h1]
    rcases h with h | h
    · exact absurd h h1
    · rw [if_pos h]

/-- Helper: a set referencing an exercise id missing from the catalog
contributes zero fatigue to every muscle. -/
theorem set_fatigue_unknown_exercise (expFn : ℚ → ℚ) (ln2 : ℚ)
    (ud : List DailyRec) (as_of : ℚ) (s : SetRec) (m : String)
    (h : EXERCISES.lookup s.exercise_id = none) :
    set_fatigue_on expFn ln2 ud as_of s m = 0 := by
  unfold set_fatigue_on
  by_cases h1 : days_since as_of s < 0
  · rw [if_pos h1]
  · rw [if_neg h1]
    by_cases h2 : RECOVERY_HORIZON_DAYS ≤ days_since as_of s
    · rw [if_pos h2]
    · rw [if_neg h2]
      simp [h]

/-- Helper: a fold over pairs never naming the muscle keeps its
accumulator. -/
theorem foldl_untouched (m : String) (f : String × ℚ → ℚ) :
    ∀ (l : List (String × ℚ)) (c : ℚ), (∀ mw ∈ l, ¬ mw.1 = m) →
      l.foldl (fun acc mw => if mw.1 = m then acc + f mw else acc) c = c := by
  intro l
  induction l with
  | nil => intro c _; rfl
  | cons x xs ih =>
    intro c h
    rw [List.foldl_cons, if_neg (h x (List.mem_cons_self x xs))]
    exact ih c (fun y hy => h y (List.mem_cons_of_mem x hy))

/-- Helper: a set whose exercise does not touch the muscle contributes zero
fatigue to it. -/
theorem set_fatigue_not_touched (expFn : ℚ → ℚ) (ln2 : ℚ) (ud : List DailyRec)
    (as_of : ℚ) (s : SetRec) (m : String) (h : touches s m = false) :
    set_fatigue_on expFn ln2 ud as_of s m = 0 := by
  unfold set_fatigue_on
  by_cases h1 : days_since as_of s < 0
  · rw [if_pos h1]
  · rw [if_neg h1]
    by_cases h2 : RECOVERY_HORIZON_DAYS ≤ days_since as_of s
    · rw [if_pos h2]
    · rw [if_neg h2]
      unfold touches at h
      cases hex : EXERCISES.lookup s.exercise_id with
      | none => simp [hex]
      | some ex =>
        rw [hex] at h
        have hall : ∀ mw ∈ muscles_and_weights ex, ¬ mw.1 = m := by
          intro mw hmw
          have := (List.any_eq_false.mp h) mw hmw
          simpa using this
        simp only [hex]
        exact foldl_untouched m _ (muscles_and_weights ex) 0 hall

/-- Helper: prepending a set that contributes nothing (for the requested
user) leaves the whole readiness map unchanged. -/
theorem compute_cons_skip (expFn : ℚ → ℚ) (ln2 : ℚ) (sets : List SetRec)
    (daily : List DailyRec) (user : String) (as_of : ℚ) (s : SetRec)
    (h : s.user_id = user →
      ∀ m, set_fatigue_on expFn ln2
        (daily.filter (fun d => decide (d.user_id = user))) as_of s m = 0) :
    compute_current_muscle_readiness expFn ln2 (s :: sets) daily user as_of
      = compute_current_muscle_readiness expFn ln2 sets daily user as_of := by
  unfold compute_current_muscle_readiness
  apply List.map_congr_left
  intro m _
  rw [fatigue_total_cons]
  by_cases hu : s.user_id = user
  · rw [if_pos hu, h hu m, zero_add]
  · rw [if_neg hu, zero_add]

/-- Helper: zero raw fatigue converts to readiness 100. -/
theorem readiness_from_raw_zero : readiness_from_raw 0 = 100 := by
  simp only [readiness_from_raw, SCALE_PER_UNIT, EPS]
  norm_num

/-- Helper: the readiness conversion always lands in the unit percentage
interval. -/
theorem readiness_from_raw_bounds (raw : ℚ) :
    0 ≤ readiness_from_raw raw ∧ readiness_from_raw raw ≤ 100 := by
  simp only [readiness_from_raw]
  constructor
  · exact le_max_left ..
  · by_cases h : raw * SCALE_PER_UNIT < EPS
    · rw [if_pos h]
      norm_num
    · rw [if_neg h]
      have h0 : (0 : ℚ) ≤ min (raw * SCALE_PER_UNIT) 100 := by
        refine le_min (le_trans ?_ (not_lt.mp h)) (by norm_num)
        norm_num [EPS]
      have h1 : 100 - min (raw * SCALE_PER_UNIT) 100 ≤ 100 := by linarith
      exact max_le (by norm_num) h1

/-- Helper: the readiness conversion is antitone in raw fatigue. -/
theorem readiness_from_raw_antitone {a b : ℚ} (h : a ≤ b) :
    readiness_from_raw b ≤ readiness_from_raw a := by
  simp only [readiness_from_raw]
  have hs : a * SCALE_PER_UNIT ≤ b * SCALE_PER_UNIT := by
    have h60 : (0 : ℚ) ≤ SCALE_PER_UNIT := by norm_num [SCALE_PER_UNIT]
    exact mul_le_mul_of_nonneg_right h h60
  by_cases ha : a * SCALE_PER_UNIT < EPS
  · by_cases hb : b * SCALE_PER_UNIT < EPS
    · rw [if_pos ha, if_pos hb]
    · rw [if_pos ha, if_neg hb]
      have h1 : (0 : ℚ) ≤ min (b * SCALE_PER_UNIT) 100 := by
        refine le_min (le_trans ?_ (not_lt.mp hb)) (by norm_num)
        norm_num [EPS]
      exact max_le_max le_rfl (by linarith)
  · have hb : ¬ b * SCALE_PER_UNIT < EPS := fun hc => ha (lt_of_le_of_lt hs hc)
    rw [if_neg ha, if_neg hb]
    have h2 : min (a * SCALE_PER_UNIT) 100 ≤ min (b * SCALE_PER_UNIT) 100 :=
      min_le_min hs le_rfl
    exact max_le_max le_rfl (by linarith)

/-- C2: a set whose days-since is negative (future timestamp) or at least
the 5.0-day recovery horizon is skipped by the readiness computation — it
changes nothing — and a muscle whose only user sets are all skipped-age or
do not touch it reads exactly 100. -/
theorem horizon_and_future_sets_skipped (expFn : ℚ → ℚ) (ln2 : ℚ)
    (sets : List SetRec) (daily : List DailyRec) (user : String) (as_of : ℚ)
    (s : SetRec)
    (h : days_since as_of s < 0 ∨ RECOVERY_HORIZON_DAYS ≤ days_since as_of s) :
    compute_current_muscle_readiness expFn ln2 (s :: sets) daily user as_of
      = compute_current_muscle_readiness expFn ln2 sets daily user as_of ∧
    ∀ m ∈ MUSCLES,
      (∀ t ∈ s :: sets, t.user_id = user →
        days_since as_of t < 0 ∨ RECOVERY_HORIZON_DAYS ≤ days_since as_of t ∨
          touches t m = false) →
      (compute_current_muscle_readiness expFn ln2 (s :: sets) daily user as_of).lookup m
        = some 100 := by
  constructor
  · exact compute_cons_skip expFn ln2 sets daily user as_of s
      (fun _ m => set_fatigue_skip expFn ln2 _ as_of s m h)
  · intro m hm hall
    have hfat : fatigue_total expFn ln2 (s :: sets) daily user as_of m = 0 := by
      unfold fatigue_total
      apply foldl_add_eq_zero
      intro x hx
      rcases List.mem_filter.mp hx with ⟨hxmem, hxuser⟩
      rcases hall x hxmem (of_decide_eq_true hxuser) with hc | hc | hc
      · exact set_fatigue_skip expFn ln2 _ as_of x m (Or.inl hc)
      · exact set_fatigue_skip expFn ln2 _ as_of x m (Or.inr hc)
      · exact set_fatigue_not_touched expFn ln2 _ as_of x m hc
    unfold compute_current_muscle_readiness
    rw [lookup_map_self _ MUSCLES m hm, hfat, readiness_from_raw_zero]

/-- C2 witness: a bench-press set aged exactly 5.0 days (logged at the
epoch, read 432000 seconds later) is skipped, and the chest — touched only
by that set — reads exactly 100. -/
theorem horizon_and_future_sets_skipped_witness :
    (days_since 432000
        (⟨"Ahmed", "bench_press", 8, 60, some 2, ⟨0, "1970-01-01"⟩, none⟩ : SetRec) < 0 ∨
      RECOVERY_HORIZON_DAYS ≤ days_since 432000
        (⟨"Ahmed", "bench_press", 8, 60, some 2, ⟨0, "1970-01-01"⟩, none⟩ : SetRec)) ∧
    compute_current_muscle_readiness (fun _ : ℚ => 1) 1
        [⟨"Ahmed", "bench_press", 8, 60, some 2, ⟨0, "1970-01-01"⟩, none⟩] [] "Ahmed" 432000
      = compute_current_muscle_readiness (fun _ : ℚ => 1) 1 [] [] "Ahmed" 432000 ∧
    (compute_current_muscle_readiness (fun _ : ℚ => 1) 1
        [⟨"Ahmed", "bench_press", 8, 60, some 2, ⟨0, "1970-01-01"⟩, none⟩] [] "Ahmed"
        432000).lookup "chest" = some 100 := by
  have hskip : days_since 432000
      (⟨"Ahmed", "bench_press", 8, 60, some 2, ⟨0, "1970-01-01"⟩, none⟩ : SetRec) < 0 ∨
      RECOVERY_HORIZON_DAYS ≤ days_since 432000
        (⟨"Ahmed", "bench_press", 8, 60, some 2, ⟨0, "1970-01-01"⟩, none⟩ : SetRec) :=
    Or.inr (by norm_num [days_since, RECOVERY_HORIZON_DAYS])
  have main := horizon_and_future_sets_skipped (fun _ : ℚ => 1) 1 [] [] "Ahmed" 432000
    ⟨"Ahmed", "bench_press", 8, 60, some 2, ⟨0, "1970-01-01"⟩, none⟩ hskip
  refine ⟨hskip, main.1, main.2 "chest" (by decide) ?_⟩
  intro t ht _
  rcases List.mem_singleton.mp ht with rfl
  exact Or.inr (Or.inl (by norm_num [days_since, RECOVERY_HORIZON_DAYS]))

/-- C4: for every user, reference instant and stored data, the readiness
map lists exactly the 19 tracked muscles, in order, and every value lies in
the closed interval from 0 to 100. -/
theorem readiness_map_total_and_bounded (expFn : ℚ → ℚ) (ln2 : ℚ)
    (sets : List SetRec) (daily : List DailyRec) (user : String) (as_of : ℚ) :
    MUSCLES.length = 19 ∧
    (compute_current_muscle_readiness expFn ln2 sets daily user as_of).map Prod.fst
      = MUSCLES ∧
    ∀ p ∈ compute_current_muscle_readiness expFn ln2 sets daily user as_of,
      0 ≤ p.2 ∧ p.2 ≤ 100 := by
  refine ⟨by decide, ?_, ?_⟩
  · simp only [compute_current_muscle_readiness, List.map_map]
    have : (Prod.fst ∘ fun m : String =>
        (m, readiness_from_raw (fatigue_total expFn ln2 sets daily user as_of m)))
        = fun m => m := rfl
    rw [this]
    exact List.map_id MUSCLES
  · intro p hp
    rcases List.mem_map.mp hp with ⟨m, -, rfl⟩
    exact readiness_from_raw_bounds _

/-- C4 witness: the total-and-bounded property of the readiness map at a
concrete user, instant and store. -/
theorem readiness_map_total_and_bounded_witness :
    MUSCLES.length = 19 ∧
    (compute_current_muscle_readiness (fun _ : ℚ => 1) 1
        [⟨"Ahmed", "bench_press", 8, 60, some 0, ⟨0, "1970-01-01"⟩, none⟩] [] "Ahmed"
        3600).map Prod.fst = MUSCLES ∧
    ∀ p ∈ compute_current_muscle_readiness (fun _ : ℚ => 1) 1
        [⟨"Ahmed", "bench_press", 8, 60, some 0, ⟨0, "1970-01-01"⟩, none⟩] [] "Ahmed" 3600,
      0 ≤ p.2 ∧ p.2 ≤ 100 :=
  readiness_map_total_and_bounded (fun _ : ℚ => 1) 1
    [⟨"Ahmed", "bench_press", 8, 60, some 0, ⟨0, "1970-01-01"⟩, none⟩] [] "Ahmed" 3600

/-- C10: classify_exercise is not total — an exercise id absent from the
catalog makes it fail (the Python dict indexing raises KeyError, modelled
as none) for every readiness map, whereas the readiness computation
silently skips a set carrying the same unknown id. -/
theorem classify_exercise_unknown_id_errors (ex_id : String)
    (h : EXERCISES.lookup ex_id = none) :
    (∀ rm : List (String × ℚ), classify_exercise ex_id rm = none) ∧
    (∀ (expFn : ℚ → ℚ) (ln2 : ℚ) (sets : List SetRec) (daily : List DailyRec)
        (user : String) (as_of : ℚ) (reps : Int) (w : ℚ) (r : Option Int)
        (ts : Datetime) (oid : Option String),
      compute_current_muscle_readiness expFn ln2
          (⟨user, ex_id, reps, w, r, ts, oid⟩ :: sets) daily user as_of
        = compute_current_muscle_readiness expFn ln2 sets daily user as_of) := by
  constructor
  · intro rm
    simp [classify_exercise, h]
  · intro expFn ln2 sets daily user as_of reps w r ts oid
    exact compute_cons_skip expFn ln2 sets daily user as_of _
      (fun _ m => set_fatigue_unknown_exercise expFn ln2 _ as_of _ m h)

/-- C10 witness: "jogging" is not a catalog id; classify_exercise fails on
it while the readiness computation ignores a set that references it. -/
theorem classify_exercise_unknown_id_errors_witness :
    EXERCISES.lookup "jogging" = none ∧
    classify_exercise "jogging" [] = none ∧
    compute_current_muscle_readiness (fun _ : ℚ => 1) 1
        [⟨"Ahmed", "jogging", 8, 60, some 2, ⟨0, "2025-11-21"⟩, none⟩] [] "Ahmed" 3600
      = compute_current_muscle_readiness (fun _ : ℚ => 1) 1 [] [] "Ahmed" 3600 :=
  ⟨by decide,
   (classify_exercise_unknown_id_errors "jogging" (by decide)).1 [],
   (classify_exercise_unknown_id_errors "jogging" (by decide)).2 (fun _ : ℚ => 1) 1 [] []
     "Ahmed" 3600 8 60 (some 2) ⟨0, "2025-11-21"⟩ none⟩

/-- The per-muscle quantity a set contributes with the effort multiplier
factored out of set_fatigue_on: identical except that the base is only the
exercise's fatigue factor 1/sfr. -/
def set_fatigue_shape (expFn : ℚ → ℚ) (ln2 : ℚ) (user_daily : List DailyRec)
    (as_of : ℚ) (s : SetRec) (m : String) : ℚ :=
  if days_since as_of s < 0 then 0
  else if RECOVERY_HORIZON_DAYS ≤ days_since as_of s then 0
  else
    let day_info := daily_by_date user_daily s.timestamp.dateKey
    let sf := sleep_factor_of_day day_info
    let stf := steps_factor_of_day day_info
    match EXERCISES.lookup s.exercise_id with
    | none => 0
    | some ex =>
      let fatigue_factor := 1 / ex.sfr
      (muscles_and_weights ex).foldl
        (fun acc mw =>
          if mw.1 = m then
            acc + fatigue_factor * mw.2 *
              expFn (-(ln2 / get_half_life_days mw.1 * sf * stf * days_since as_of s))
          else acc)
        0

/-- Helper: a constant multiplier distributes out of the guarded fold. -/
theorem foldl_if_factor (m : String) (c ff : ℚ) (E : String × ℚ → ℚ) :
    ∀ (l : List (String × ℚ)) (a : ℚ),
      l.foldl (fun acc mw => if mw.1 = m then acc + c * ff * mw.2 * E mw else acc) (c * a)
        = c * l.foldl (fun acc mw => if mw.1 = m then acc + ff * mw.2 * E mw else acc) a := by
  intro l
  induction l with
  | nil => intro a; rfl
  | cons x xs ih =>
    intro a
    rw [List.foldl_cons, List.foldl_cons]
    by_cases hx : x.1 = m
    · rw [if_pos hx, if_pos hx,
        show c * a + c * ff * x.2 * E x = c * (a + ff * x.2 * E x) by ring, ih]
    · rw [if_neg hx, if_neg hx, ih]

/-- Helper: a set's per-muscle fatigue is its effort multiplier times an
effort-independent shape. -/
theorem set_fatigue_on_eq_effort_mul_shape (expFn : ℚ → ℚ) (ln2 : ℚ)
    (ud : List DailyRec) (as_of : ℚ) (s : SetRec) (m : String) :
    set_fatigue_on expFn ln2 ud as_of s m
      = effort_multiplier_from_rir s.rir * set_fatigue_shape expFn ln2 ud as_of s m := by
  unfold set_fatigue_on set_fatigue_shape
  by_cases h1 : days_since as_of s < 0
  · rw [if_pos h1, if_pos h1, mul_zero]
  · rw [if_neg h1, if_neg h1]
    by_cases h2 : RECOVERY_HORIZON_DAYS ≤ days_since as_of s
    · rw [if_pos h2, if_pos h2, mul_zero]
    · rw [if_neg h2, if_neg h2]
      cases hex : EXERCISES.lookup s.exercise_id with
      | none => simp [hex]
      | some ex =>
        simp only [hex]
        have key := foldl_if_factor m (effort_multiplier_from_rir s.rir) (1 / ex.sfr)
          (fun mw => expFn (-(ln2 / get_half_life_days mw.1 *
            sleep_factor_of_day (daily_by_date ud s.timestamp.dateKey) *
            steps_factor_of_day (daily_by_date ud s.timestamp.dateKey) *
            days_since as_of s)))
          (muscles_and_weights ex) 0
        rw [mul_zero] at key
        exact key

/-- Helper: a successful association-list lookup result is a value of the
list. -/
theorem mem_of_lookup {β : Type} (k : String) (v : β) :
    ∀ (l : List (String × β)), l.lookup k = some v → ∃ a, (a, v) ∈ l := by
  intro l
  induction l with
  | nil => intro h; cases h
  | cons p t ih =>
    intro h
    rcases p with ⟨a, b⟩
    cases hk : (k == a) with
    | true =>
      simp only [List.lookup, hk] at h
      injection h with h'
      subst h'
      exact ⟨a, List.mem_cons_self _ _⟩
    | false =>
      simp only [List.lookup, hk] at h
      rcases ih h with ⟨a', ha'⟩
      exact ⟨a', List.mem_cons_of_mem _ ha'⟩

/-- Helper: every catalog exercise has a positive stimulus-to-fatigue
ratio. -/
theorem sfr_pos_all : ∀ p ∈ EXERCISES, 0 < p.2.sfr := by
  intro p hp
  fin_cases hp <;> norm_num

/-- Helper: the exercise found for a catalog id has a positive SFR. -/
theorem sfr_pos_of_lookup {i : String} {ex : Exercise}
    (h : EXERCISES.lookup i = some ex) : 0 < ex.sfr := by
  rcases mem_of_lookup i ex EXERCISES h with ⟨a, ha⟩
  exact sfr_pos_all (a, ex) ha

/-- Helper: every weighted pair of an exercise carries weight 1.0 or 0.5. -/
theorem weight_cases (ex : Exercise) (mw : String × ℚ)
    (h : mw ∈ muscles_and_weights ex) : mw.2 = 1 ∨ mw.2 = 0.5 := by
  rcases List.mem_append.mp h with h | h <;> rcases List.mem_map.mp h with ⟨x, -, rfl⟩
  · exact Or.inl (by norm_num)
  · exact Or.inr rfl

/-- Helper: a fold whose steps never decrease the accumulator bounds it
from below by its start. -/
theorem foldl_nonneg_mem {α : Type} (f : ℚ → α → ℚ) :
    ∀ (l : List α), (∀ x ∈ l, ∀ a : ℚ, a ≤ f a x) → ∀ a : ℚ, a ≤ l.foldl f a := by
  intro l
  induction l with
  | nil => intro _ a; exact le_refl a
  | cons x xs ih =>
    intro h a
    rw [List.foldl_cons]
    exact le_trans (h x (List.mem_cons_self x xs) a)
      (ih (fun y hy => h y (List.mem_cons_of_mem x hy)) (f a x))

/-- Helper: the effort-independent shape is nonnegative whenever the
exponential is. -/
theorem set_fatigue_shape_nonneg (expFn : ℚ → ℚ) (hexp : ∀ x, 0 ≤ expFn x)
    (ln2 : ℚ) (ud : List DailyRec) (as_of : ℚ) (s : SetRec) (m : String) :
    0 ≤ set_fatigue_shape expFn ln2 ud as_of s m := by
  unfold set_fatigue_shape
  by_cases h1 : days_since as_of s < 0
  · rw [if_pos h1]
  · rw [if_neg h1]
    by_cases h2 : RECOVERY_HORIZON_DAYS ≤ days_since as_of s
    · rw [if_pos h2]
    · rw [if_neg h2]
      cases hex : EXERCISES.lookup s.exercise_id with
      | none => simp [hex]
      | some ex =>
        simp only [hex]
        apply foldl_nonneg_mem
        intro mw hmw a
        by_cases hm : mw.1 = m
        · rw [if_pos hm]
          have hw : (0 : ℚ) ≤ mw.2 := by
            rcases weight_cases ex mw hmw with h | h <;> rw [h] <;> norm_num
          have hff : (0 : ℚ) ≤ 1 / ex.sfr :=
            le_of_lt (one_div_pos.mpr (sfr_pos_of_lookup hex))
          exact le_add_of_nonneg_right (mul_nonneg (mul_nonneg hff hw) (hexp _))
        · rw [if_neg hm]

/-- C3: with the same user, exercise, reps, weight, timestamp, stored daily
entries and reference instant, logging only a maximal-effort RIR-0 set
yields, for every muscle, readiness less than or equal to that from logging
only an easy RIR-4 set (effort multipliers 1.2 versus 0.4), provided the
exponential is nonnegative, as the real exponential is. -/
theorem rir_harder_set_lower_readiness (expFn : ℚ → ℚ) (hexp : ∀ x, 0 ≤ expFn x)
    (ln2 : ℚ) (daily : List DailyRec) (user ex_id : String) (reps : Int) (w : ℚ)
    (ts : Datetime) (oid : Option String) (as_of : ℚ) (m : String) :
    readiness_at (compute_current_muscle_readiness expFn ln2
        [⟨user, ex_id, reps, w, some 0, ts, oid⟩] daily user as_of) m
      ≤ readiness_at (compute_current_muscle_readiness expFn ln2
        [⟨user, ex_id, reps, w, some 4, ts, oid⟩] daily user as_of) m := by
  by_cases hm : m ∈ MUSCLES
  · unfold readiness_at compute_current_muscle_readiness
    rw [lookup_map_self _ MUSCLES m hm, lookup_map_self _ MUSCLES m hm]
    simp only [Option.getD_some]
    apply readiness_from_raw_antitone
    rw [fatigue_total_cons, fatigue_total_cons]
    have h0 : ∀ r : Option Int, fatigue_total expFn ln2 [] daily user as_of m = 0 :=
      fun _ => rfl
    rw [h0 none, add_zero, add_zero, if_pos rfl, if_pos rfl]
    rw [set_fatigue_on_eq_effort_mul_shape, set_fatigue_on_eq_effort_mul_shape]
    dsimp only
    have e4 : effort_multiplier_from_rir (some 4) = 0.4 := by
      norm_num [effort_multiplier_from_rir]
    have e0 : effort_multiplier_from_rir (some 0) = 1.2 := by
      norm_num [effort_multiplier_from_rir]
    rw [e0, e4]
    have hshape : set_fatigue_shape expFn ln2
          (daily.filter (fun d => decide (d.user_id = user))) as_of
          ⟨user, ex_id, reps, w, some 4, ts, oid⟩ m
        = set_fatigue_shape expFn ln2
          (daily.filter (fun d => decide (d.user_id = user))) as_of
          ⟨user, ex_id, reps, w, some 0, ts, oid⟩ m := rfl
    rw [hshape]
    exact mul_le_mul_of_nonneg_right (by norm_num)
      (set_fatigue_shape_nonneg expFn hexp ln2 _ as_of _ m)
  · unfold readiness_at compute_current_muscle_readiness
    rw [lookup_map_none _ MUSCLES m hm, lookup_map_none _ MUSCLES m hm]

/-- C3 witness: the RIR monotonicity instantiated at a concrete bench-press
set, one hour old, with the constant-one exponential. -/
theorem rir_harder_set_lower_readiness_witness :
    (∀ x : ℚ, 0 ≤ (fun _ : ℚ => (1 : ℚ)) x) ∧
    readiness_at (compute_current_muscle_readiness (fun _ : ℚ => 1) 1
        [⟨"Ahmed", "bench_press", 8, 60, some 0, ⟨0, "1970-01-01"⟩, none⟩] [] "Ahmed"
        3600) "chest"
      ≤ readiness_at (compute_current_muscle_readiness (fun _ : ℚ => 1) 1
        [⟨"Ahmed", "bench_press", 8, 60, some 4, ⟨0, "1970-01-01"⟩, none⟩] [] "Ahmed"
        3600) "chest" :=
  ⟨fun _ => zero_le_one,
   rir_harder_set_lower_readiness (fun _ : ℚ => 1) (fun _ => zero_le_one) 1 [] "Ahmed"
     "bench_press" 8 60 ⟨0, "1970-01-01"⟩ none 3600 "chest"⟩

/-- Splitting a character list on ':' (the working loop behind Python's
str.split(":")): accumulates the current field reversed, emitting a field
at each separator. -/
def splitColonAux : List Char → List Char → List (List Char)
  | [], acc => [acc.reverse]
  | c :: rest, acc =>
    if c = ':' then acc.reverse :: splitColonAux rest []
    else splitColonAux rest (c :: acc)

/-- Python str.split(":"). -/
def py_split_colon (s : String) : List String :=
  (splitColonAux s.data []).map (fun l => String.mk l)

/-- One record of the users.json "users" collection (auth.py). -/
structure UserAccount where
  username : String
  password_hash : String
  created_at : String
deriving DecidableEq

/-- auth._hash_password with the salt passed explicitly (the source draws a
fresh random salt when none is given): stored format "HEX_SALT:HEX_HASH". -/
def hash_password (pbkdf2 : String → String → String) (password salt_hex : String) :
    String :=
  salt_hex ++ ":" ++ pbkdf2 password salt_hex

/-- auth._verify_password: split the stored value on ":" — anything other
than exactly two parts is the ValueError caught as False — then recompute
the hash with the stored salt and compare for exact equality. -/
def verify_password (pbkdf2 : String → String → String) (password stored : String) :
    Bool :=
  match py_split_colon stored with
  | [salt_hex, hash_hex] => pbkdf2 password salt_hex == hash_hex
  | _ => false

/-- auth.create_user: trim the username; reject an empty trimmed username,
a password shorter than 6 characters, or an existing username; otherwise
append the account and report success. -/
def create_user (pbkdf2 : String → String → String) (users : List UserAccount)
    (username password salt_hex now : String) : List UserAccount × Bool × String :=
  let uname := py_strip username
  if uname = "" then (users, false, "Username cannot be empty.")
  else if password.length < 6 then (users, false, "Password must be at least 6 characters.")
  else if users.any (fun u => u.username == uname) then (users, false, "Username already exists.")
  else (users ++ [⟨uname, hash_password pbkdf2 password salt_hex, now⟩], true,
    "User created successfully.")

/-- auth.verify_user: trim the username; empty or unknown usernames fail;
otherwise check the password against the first account bearing the
username. -/
def verify_user (pbkdf2 : String → String → String) (users : List UserAccount)
    (username password : String) : Bool :=
  let uname := py_strip username
  if uname = "" then false
  else
    match users.find? (fun u => u.username == uname) with
    | some u => verify_password pbkdf2 password u.password_hash
    | none => false

/-- Helper: splitting a colon-free list yields one field. -/
theorem splitColonAux_no_colon :
    ∀ (l acc : List Char), ':' ∉ l → splitColonAux l acc = [acc.reverse ++ l] := by
  intro l
  induction l with
  | nil =>
    intro acc _
    simp [splitColonAux]
  | cons c rest ih =>
    intro acc h
    have hc : ¬ c = ':' := fun hc => h (hc ▸ List.mem_cons_self c rest)
    simp only [splitColonAux, if_neg hc]
    rw [ih (c :: acc) (fun hm => h (List.mem_cons_of_mem c hm))]
    simp

/-- Helper: splitting at the first colon separates the colon-free head. -/
theorem splitColonAux_with_colon :
    ∀ (l : List Char) (acc rest : List Char), ':' ∉ l →
      splitColonAux (l ++ ':' :: rest) acc
        = (acc.reverse ++ l) :: splitColonAux rest [] := by
  intro l
  induction l with
  | nil =>
    intro acc rest _
    simp only [List.nil_append, splitColonAux, if_pos rfl]
    simp
  | cons c t ih =>
    intro acc rest h
    have hc : ¬ c = ':' := fun hc => h (hc ▸ List.mem_cons_self c t)
    simp only [List.cons_append, splitColonAux, if_neg hc, List.append_eq]
    rw [ih (c :: acc) rest (fun hm => h (List.mem_cons_of_mem c hm))]
    simp

/-- Helper: the stored "salt:hash" string splits back into its two
colon-free components. -/
theorem py_split_colon_roundtrip (a b : String)
    (ha : ':' ∉ a.data) (hb : ':' ∉ b.data) :
    py_split_colon (a ++ ":" ++ b) = [a, b] := by
  unfold py_split_colon
  have hdata : (a ++ ":" ++ b).data = a.data ++ ':' :: b.data := by
    rw [String.data_append, String.data_append]
    simp
  rw [hdata, splitColonAux_with_colon a.data [] b.data ha,
    splitColonAux_no_colon b.data [] hb]
  simp

/-- Helper: verifying against a freshly stored salt:hash record reduces to
comparing the recomputed hash with the stored one. -/
theorem verify_password_roundtrip (pbkdf2 : String → String → String)
    (password password2 salt_hex : String)
    (hsalt : ':' ∉ salt_hex.data)
    (hhash : ':' ∉ (pbkdf2 password salt_hex).data) :
    verify_password pbkdf2 password2 (hash_password pbkdf2 password salt_hex)
      = (pbkdf2 password2 salt_hex == pbkdf2 password salt_hex) := by
  unfold verify_password hash_password
  rw [py_split_colon_roundtrip salt_hex (pbkdf2 password salt_hex) hsalt hhash]

/-- C9: for a trimmed non-empty username not already present and a password
of at least 6 characters, create_user succeeds and verify_user immediately
accepts the same credentials; a password hashing differently is rejected,
and any username absent from the store is rejected.  The salt and the
derived hash are hex strings in the source, hence colon-free, which the
corresponding hypotheses record. -/
theorem create_then_verify (pbkdf2 : String → String → String)
    (users : List UserAccount) (username password salt_hex now : String)
    (hname : ¬ py_strip username = "")
    (hpw : 6 ≤ password.length)
    (hfresh : ∀ acc ∈ users, acc.username ≠ py_strip username)
    (hsalt : ':' ∉ salt_hex.data)
    (hhash : ':' ∉ (pbkdf2 password salt_hex).data) :
    (create_user pbkdf2 users username password salt_hex now).2.1 = true ∧
    verify_user pbkdf2 (create_user pbkdf2 users username password salt_hex now).1
      username password = true ∧
    (∀ password2 : String, pbkdf2 password2 salt_hex ≠ pbkdf2 password salt_hex →
      verify_user pbkdf2 (create_user pbkdf2 users username password salt_hex now).1
        username password2 = false) ∧
    (∀ other pw2 : String,
      (∀ acc ∈ (create_user pbkdf2 users username password salt_hex now).1,
        acc.username ≠ py_strip other) →
      verify_user pbkdf2 (create_user pbkdf2 users username password salt_hex now).1
        other pw2 = false) := by
  have hany : users.any (fun u => u.username == py_strip username) = false := by
    rw [List.any_eq_false]
    intro u hu
    simpa using hfresh u hu
  have hcreate : create_user pbkdf2 users username password salt_hex now
      = (users ++ [⟨py_strip username, hash_password pbkdf2 password salt_hex, now⟩],
         true, "User created successfully.") := by
    unfold create_user
    rw [if_neg hname, if_neg (not_lt.mpr hpw), if_neg (by simp [hany])]
  have hfind : (users
        ++ [(⟨py_strip username, hash_password pbkdf2 password salt_hex, now⟩ : UserAccount)]).find?
        (fun u => u.username == py_strip username)
      = some (⟨py_strip username, hash_password pbkdf2 password salt_hex, now⟩ : UserAccount) := by
    rw [List.find?_append]
    have h1 : users.find? (fun u => u.username == py_strip username) = none := by
      rw [List.find?_eq_none]
      intro u hu
      simpa using hfresh u hu
    rw [h1]
    simp [List.find?]
  refine ⟨by rw [hcreate], ?_, ?_, ?_⟩
  · rw [hcreate]
    unfold verify_user
    rw [if_neg hname, hfind]
    dsimp only
    rw [verify_password_roundtrip pbkdf2 password password salt_hex hsalt hhash]
    simp
  · intro password2 hne
    rw [hcreate]
    unfold verify_user
    rw [if_neg hname, hfind]
    dsimp only
    rw [verify_password_roundtrip pbkdf2 password password2 salt_hex hsalt hhash]
    simpa using hne
  · intro other pw2 hnone
    rw [hcreate]
    unfold verify_user
    by_cases hother : py_strip other = ""
    · rw [if_pos hother]
    · rw [if_neg hother]
      rw [hcreate] at hnone
      have hfindnone : (users
            ++ [(⟨py_strip username, hash_password pbkdf2 password salt_hex, now⟩ : UserAccount)]).find?
            (fun u => u.username == py_strip other) = none := by
        rw [List.find?_eq_none]
        intro u hu
        simpa using hnone u hu
      rw [hfindnone]

/-- C9 witness: creating "Ahmed" with password "secret1" (salt "abcd",
hashing modelled by concatenation) then verifying succeeds; a wrong
password and an unknown username both fail. -/
theorem create_then_verify_witness :
    (¬ py_strip "Ahmed" = "") ∧
    6 ≤ "secret1".length ∧
    (':' ∉ "abcd".data) ∧
    (create_user (fun pw s => pw ++ s) [] "Ahmed" "secret1" "abcd"
      "2025-11-21T00:00:00").2.1 = true ∧
    verify_user (fun pw s => pw ++ s)
      (create_user (fun pw s => pw ++ s) [] "Ahmed" "secret1" "abcd"
        "2025-11-21T00:00:00").1 "Ahmed" "secret1" = true ∧
    verify_user (fun pw s => pw ++ s)
      (create_user (fun pw s => pw ++ s) [] "Ahmed" "secret1" "abcd"
        "2025-11-21T00:00:00").1 "Ahmed" "wrongpw" = false ∧
    verify_user (fun pw s => pw ++ s)
      (create_user (fun pw s => pw ++ s) [] "Ahmed" "secret1" "abcd"
        "2025-11-21T00:00:00").1 "Nobody" "secret1" = false := by
  have main := create_then_verify (fun pw s => pw ++ s) [] "Ahmed" "secret1" "abcd"
    "2025-11-21T00:00:00" (by decide) (by decide) (by intro acc h; cases h) (by decide)
    (by decide)
  refine ⟨by decide, by decide, by decide, main.1, main.2.1,
    main.2.2.1 "wrongpw" (by decide), main.2.2.2 "Nobody" "secret1" ?_⟩
  intro acc hacc
  have : (create_user (fun pw s : String => pw ++ s) [] "Ahmed" "secret1" "abcd"
      "2025-11-21T00:00:00").1 = [⟨"Ahmed", "abcd:secret1abcd", "2025-11-21T00:00:00"⟩] := by
    decide
  rw [this] at hacc
  rcases List.mem_singleton.mp hacc with rfl
  decide

/-- The function names storage.py defines, in source order. -/
def storage_def_names : List String :=
  ["_load_data", "_save_data", "log_set", "log_daily_recovery",
   "get_all_sets", "get_all_daily", "delete_set_by_timestamp"]

/-- The names app_streamlit.py line 9 imports from the storage module. -/
def app_streamlit_storage_import_names : List String :=
  ["log_set", "get_all_sets", "delete_set_by_id"]

/-- One call to storage.log_set, for quantifying over call sequences. -/
structure LogCall where
  user_id : String
  exercise_id : String
  reps : Int
  weight : ℚ
  rir : Option Int
  timestamp : Datetime
deriving DecidableEq

/-- Replay a sequence of log_set calls against the empty data file. -/
def apply_log_calls (calls : List LogCall) : Store :=
  calls.foldl
    (fun st c => log_set st c.user_id c.exercise_id c.reps c.weight c.rir c.timestamp)
    EMPTY_STORE

/-- The rows the dashboard's recent-sets delete selector offers: a row is
deletable only when its ID cell — s.get("id", "") — is a non-empty string
(app_streamlit.py, the options comprehension guarded by `if row["ID"]`). -/
def deletable_sets (sets : List SetRec) : List SetRec :=
  sets.filter (fun s => decide (¬ s.id.getD "" = ""))

/-- Helper: every set reachable through log_set alone carries no id. -/
theorem log_calls_no_id (calls : List LogCall) :
    ∀ st : Store, (∀ s ∈ st.sets, s.id = none) →
      ∀ s ∈ (calls.foldl
        (fun st c => log_set st c.user_id c.exercise_id c.reps c.weight c.rir c.timestamp)
        st).sets, s.id = none := by
  induction calls with
  | nil => intro st h; exact h
  | cons c rest ih =>
    intro st h
    rw [List.foldl_cons]
    apply ih
    intro s hs
    simp only [log_set] at hs
    rcases List.mem_append.mp hs with hs | hs
    · exact h s hs
    · rcases List.mem_singleton.mp hs with rfl
      rfl

/-- C1: the dashboard imports a delete-set-by-identifier operation from the
storage module, but storage defines no such function, and log_set assigns
no identifier — so every stored set lacks an id and the dashboard's delete
selector can never offer a row. -/
theorem delete_set_by_id_missing :
    "delete_set_by_id" ∈ app_streamlit_storage_import_names ∧
    "delete_set_by_id" ∉ storage_def_names ∧
    (∀ calls : List LogCall, ∀ s ∈ (apply_log_calls calls).sets, s.id = none) ∧
    (∀ calls : List LogCall, deletable_sets (apply_log_calls calls).sets = []) := by
  have hnoid : ∀ calls : List LogCall, ∀ s ∈ (apply_log_calls calls).sets, s.id = none :=
    fun calls => log_calls_no_id calls EMPTY_STORE (by intro s hs; cases hs)
  refine ⟨by decide, by decide, hnoid, ?_⟩
  intro calls
  unfold deletable_sets
  rw [List.filter_eq_nil_iff]
  intro s hs
  rw [hnoid calls s hs]
  decide

/-- C1 witness: after one logged bench-press set the stored record has no
id and the delete selector offers nothing. -/
theorem delete_set_by_id_missing_witness :
    "delete_set_by_id" ∈ app_streamlit_storage_import_names ∧
    "delete_set_by_id" ∉ storage_def_names ∧
    (∀ s ∈ (apply_log_calls
        [⟨"Ahmed", "bench_press", 8, 60, some 2, ⟨0, "1970-01-01"⟩⟩]).sets, s.id = none) ∧
    deletable_sets (apply_log_calls
        [⟨"Ahmed", "bench_press", 8, 60, some 2, ⟨0, "1970-01-01"⟩⟩]).sets = [] :=
  ⟨delete_set_by_id_missing.1, delete_set_by_id_missing.2.1,
   delete_set_by_id_missing.2.2.1 [⟨"Ahmed", "bench_press", 8, 60, some 2, ⟨0, "1970-01-01"⟩⟩],
   delete_set_by_id_missing.2.2.2 [⟨"Ahmed", "bench_press", 8, 60, some 2, ⟨0, "1970-01-01"⟩⟩]⟩
